import Mathlib

/-!
# TeslaSmartChargeApp — verification of the charging decision engine

Shallow embedding of the Cloud Functions in `functions/index.js`:

* `decisionLogic` — the decision block of `manageChargingLogic`
  (emergency / bonus / optimal-window rules, default STOP);
* `manageChargingLogic` — the document-update handler: manual-override
  branch (dispatch START, clear the flag, also on failure) followed by the
  plug-in-transition branch that runs `decisionLogic`;
* `calculateOptimalWindow` / `bestStartHour` — the sliding-window scan over
  the hourly price list (running minimum, strict `<` comparison);
* `processUser` / `applyWindowUpdate` — the per-user fan-out of the window
  selector (skip on missing settings / falsy duration, write only when a
  window was found);
* `fetchEnergyPricesCore` — the price-feed normalisation step of
  `fetchEnergyPrices` (zero-points guard, per-point `position`/`price.amount`
  conversion, failure when the period start cannot be parsed);
* `applyTelemetry` — the partial vehicle update built by `telemetryWebhook`
  (field presence decided by JavaScript truthiness).

JavaScript numbers are modelled as `ℚ` (prices, battery percentages) and
`ℤ` (hours, durations); fields that may be absent from a document are
`Option`s.
-/

namespace TeslaCharge

/-! ## Decision policy (`manageChargingLogic`, decision block) -/

/-- The charging command sent to `sendTeslaChargeCommand`. -/
inductive Decision
  | START
  | STOP
deriving DecidableEq, Repr

/-- The decision block of `manageChargingLogic`: `decision` starts as
`'STOP'` and the three `if / else if` rules are tried in order —
emergency (`batteryLevel < emergencyThreshold`), bonus (`currentPrice < 0`),
optimal window (`currentHour >= optimalStartHour &&
currentHour < optimalStartHour + settings.chargingDuration &&
batteryLevel < targetBattery`). -/
def decisionLogic (batteryLevel emergencyThreshold currentPrice : ℚ)
    (currentHour optimalStartHour chargingDuration : ℤ)
    (targetBattery : ℚ) : Decision :=
  if batteryLevel < emergencyThreshold then Decision.START
  else if currentPrice < 0 then Decision.START
  else if currentHour ≥ optimalStartHour
      ∧ currentHour < optimalStartHour + chargingDuration
      ∧ batteryLevel < targetBattery then Decision.START
  else Decision.STOP

/-! ## Document model and `manageChargingLogic` -/

/-- The `vehicle` map of a user document (the fields `manageChargingLogic`
reads). -/
structure Vehicle where
  isPluggedIn : Bool
  batteryLevel : ℚ
deriving DecidableEq

/-- The `settings` map of a user document (the fields `manageChargingLogic`
reads). -/
structure Settings where
  optimalStartHour : ℤ
  emergencyThreshold : ℚ
  targetBattery : ℚ
  chargingDuration : ℤ
deriving DecidableEq

/-- A user document as read by `manageChargingLogic`.  `chargeOverride` may
be absent (`none`), so the JavaScript strict comparisons `=== true` /
`!== true` are comparisons against `some true`. -/
structure UserDoc where
  chargeOverride : Option Bool
  vehicle : Vehicle
  settings : Settings
deriving DecidableEq

/-- The externally visible steps `manageChargingLogic` takes, in order:
`dispatch c` is a call of `sendTeslaChargeCommand` with command `c`,
`clearOverride` is the Firestore update `{ chargeOverride: false }`, and
`logError` is a `logger.error` call in a `catch` block. -/
inductive Action
  | dispatch (c : Decision)
  | clearOverride
  | logError
deriving DecidableEq, Repr

/-- The guard of the manual-override branch:
`afterData.chargeOverride === true && beforeData.chargeOverride !== true`. -/
def overrideTriggered (before after : UserDoc) : Bool :=
  (after.chargeOverride == some true) && !(before.chargeOverride == some true)

/-- The guard of the plug-in branch:
`beforeData.vehicle.isPluggedIn === false &&
afterData.vehicle.isPluggedIn === true`. -/
def plugInDetected (before after : UserDoc) : Bool :=
  (before.vehicle.isPluggedIn == false) && (after.vehicle.isPluggedIn == true)

/-- `manageChargingLogic` as the ordered list of externally visible steps it
takes on one document update.  `rates` is the `hourlyRates` document keyed by
hour (`none` models a missing `energy_prices/NL` document, and a missing hour
key makes `prices[currentHour].price` throw); `dispatchOk` tells whether the
`try` block of the override branch runs to completion — when it raises, the
`catch` block logs and still resets the flag. -/
def manageChargingLogic (before after : UserDoc) (rates : Option (ℤ → Option ℚ))
    (currentHour : ℤ) (dispatchOk : Bool) : List Action :=
  if overrideTriggered before after then
    if dispatchOk then [Action.dispatch Decision.START, Action.clearOverride]
    else [Action.dispatch Decision.START, Action.logError, Action.clearOverride]
  else if plugInDetected before after then
    match rates with
    | none => [Action.logError]
    | some f =>
      match f currentHour with
      | none => [Action.logError]
      | some currentPrice =>
        [Action.dispatch (decisionLogic after.vehicle.batteryLevel
            after.settings.emergencyThreshold currentPrice currentHour
            after.settings.optimalStartHour after.settings.chargingDuration
            after.settings.targetBattery)]
  else []

/-- Effect of one action on the user document: only the flag-reset update
`{ chargeOverride: false }` changes it. -/
def applyAction (u : UserDoc) : Action → UserDoc
  | Action.clearOverride => { u with chargeOverride := some false }
  | _ => u

/-- The user document after a list of actions has been applied. -/
def runActions (u : UserDoc) (acts : List Action) : UserDoc :=
  acts.foldl applyAction u

/-- The commands handed to `sendTeslaChargeCommand`, in order. -/
def dispatchedCommands (acts : List Action) : List Decision :=
  acts.filterMap fun a =>
    match a with
    | Action.dispatch c => some c
    | _ => none

/-- A concrete pre-state: override not set, car plugged in, full battery. -/
def demoBefore : UserDoc :=
  { chargeOverride := some false
    vehicle := { isPluggedIn := true, batteryLevel := 100 }
    settings := { optimalStartHour := 2, emergencyThreshold := 20,
                  targetBattery := 80, chargingDuration := 4 } }

/-- A concrete post-state: the user just set the override flag; battery at
100%, current hour far outside the optimal window. -/
def demoAfter : UserDoc :=
  { demoBefore with chargeOverride := some true }

/-- A concrete pre-state for a simultaneous override-and-plug-in update. -/
def demoBeforeUnplugged : UserDoc :=
  { demoBefore with vehicle := { isPluggedIn := false, batteryLevel := 100 } }

/-! ## Window Selector (`calculateOptimalWindow`) -/

/-- Mean price of the window of `d` hours starting at hour `s`:
`prices.slice(startHour, startHour + hoursNeeded)` summed by
`reduce((a, b) => a + b, 0)` and divided by `hoursNeeded`. -/
def windowAvg (prices : List ℚ) (s d : ℕ) : ℚ :=
  ((prices.drop s).take d).sum / (d : ℚ)

/-- One iteration of the scan.  The running state is
`none` for the initial `bestStartHour = -1` / `lowestAveragePrice = Infinity`
pair (any window mean is below `Infinity`, so the first iteration always
takes the update), and `some (b, lo)` afterwards; the comparison is the
strict `averagePrice < lowestAveragePrice` of the source. -/
def owStep (prices : List ℚ) (d : ℕ) (st : Option (ℕ × ℚ)) (s : ℕ) :
    Option (ℕ × ℚ) :=
  match st with
  | none => some (s, windowAvg prices s d)
  | some (b, lo) =>
    if windowAvg prices s d < lo then some (s, windowAvg prices s d)
    else some (b, lo)

/-- Number of loop iterations of
`for (startHour = 0; startHour <= prices.length - hoursNeeded; startHour++)`:
in JavaScript the bound is negative when `hoursNeeded > prices.length`, so
the loop body never runs. -/
def owIterCount (n d : ℕ) : ℕ :=
  if d ≤ n then n - d + 1 else 0

/-- The scan of `calculateOptimalWindow` for one user: the final
`(bestStartHour, lowestAveragePrice)` pair, `none` when the loop never
updated (`bestStartHour === -1`). -/
def calculateOptimalWindow (prices : List ℚ) (d : ℕ) : Option (ℕ × ℚ) :=
  (List.range (owIterCount prices.length d)).foldl (owStep prices d) none

/-- The winning start hour, when one exists. -/
def bestStartHour (prices : List ℚ) (d : ℕ) : Option ℕ :=
  (calculateOptimalWindow prices d).map Prod.fst

/-- The `settings` map of a user document as read and written by
`calculateOptimalWindow`: both fields may be absent. -/
structure WindowSettings where
  chargingDuration : Option ℕ
  optimalStartHour : Option ℕ
deriving DecidableEq

/-- A user document as seen by `calculateOptimalWindow`: the whole
`settings` map may be absent. -/
structure WindowUser where
  settings : Option WindowSettings
deriving DecidableEq

/-- Per-user step of the fan-out: the value written to
`settings.optimalStartHour`, or `none` when nothing is written.  The guard
`if (!userSettings || !userSettings.chargingDuration)` skips a missing
settings map, a missing duration, and (by JavaScript truthiness) a zero
duration; afterwards an update is queued only when `bestStartHour !== -1`. -/
def processUser (prices : List ℚ) (u : WindowUser) : Option ℕ :=
  match u.settings with
  | none => none
  | some s =>
    match s.chargingDuration with
    | none => none
    | some d => if d = 0 then none else bestStartHour prices d

/-- Effect of the queued update on the user document: `none` leaves it
untouched; `some b` is the dotted-path update
`{ 'settings.optimalStartHour': b }`, which creates the `settings` map when
it is absent. -/
def applyWindowUpdate (u : WindowUser) : Option ℕ → WindowUser
  | none => u
  | some b =>
    match u.settings with
    | none => { settings := some { chargingDuration := none, optimalStartHour := some b } }
    | some s => { settings := some { s with optimalStartHour := some b } }

/-- A concrete 24-hour price list: cheapest 2-hour window at hours 5–6. -/
def demoPrices : List ℚ :=
  [3, 3, 3, 3, 3, 0, 0, 3, 3, 3, 3, 3, 3, 3, 3, 3, 3, 3, 3, 3, 3, 3, 3, 3]

/-- A concrete user with a stored optimal window and a 4-hour duration. -/
def demoWindowUser : WindowUser :=
  { settings := some { chargingDuration := some 4, optimalStartHour := some 7 } }

/-! ## Vehicle State Tracker (`telemetryWebhook`) -/

/-- The vehicle fields `telemetryWebhook` can write. -/
structure TVehicle where
  isCharging : Bool
  isPluggedIn : Bool
  batteryLevel : ℚ
deriving DecidableEq

/-- One telemetry payload (`req.body.data`): each field may be absent. -/
structure TelemetryData where
  charging_state : Option String
  charge_port_latch : Option String
  battery_level : Option ℚ
deriving DecidableEq

/-- The composite effect of the `vehicleUpdate` object `telemetryWebhook`
builds and applies.  Each field is guarded by a JavaScript truthiness check
(`if (data.charging_state)` …), so an absent field, an empty string, and a
zero `battery_level` are all skipped; a truthy `charging_state` sets
`isCharging` to `charging_state === 'Charging'`, a truthy
`charge_port_latch` sets `isPluggedIn` to `charge_port_latch === 'Engaged'`,
and a truthy `battery_level` is stored as is. -/
def applyTelemetry (v : TVehicle) (data : TelemetryData) : TVehicle :=
  let v1 :=
    match data.charging_state with
    | none => v
    | some s => if s = "" then v else { v with isCharging := s == "Charging" }
  let v2 :=
    match data.charge_port_latch with
    | none => v1
    | some s => if s = "" then v1 else { v1 with isPluggedIn := s == "Engaged" }
  match data.battery_level with
  | none => v2
  | some q => if q = 0 then v2 else { v2 with batteryLevel := q }

/-! ## Plug-in transition sequences -/

/-- The rising-edge test on one consecutive pair of `isPluggedIn`
snapshots: `before === false && after === true`. -/
def plugInFlip (b a : Bool) : Bool :=
  (b == false) && (a == true)

/-- One entry per state update (consecutive snapshot pair): whether that
update emits the plug-in-transition notification. -/
def plugInEvents : List Bool → List Bool
  | b :: a :: rest => plugInFlip b a :: plugInEvents (a :: rest)
  | _ => []

/-! ## Price Normalizer (`fetchEnergyPrices`, parsing step) -/

/-- One upstream price point, after the per-point numeric parses
(`parseInt(point.position[0], 10)`, `parseFloat(point['price.amount'][0])`). -/
structure RawPoint where
  position : ℤ
  priceAmount : ℚ
deriving DecidableEq

/-- Why a price-refresh cycle aborts (the thrown errors of the parsing
step, all caught by the outer `catch`, which publishes nothing). -/
inductive FeedError
  | noPoints
  | invalidTime
deriving DecidableEq, Repr

/-- The normalisation step of `fetchEnergyPrices` on the relevant
`TimeSeries`: the guard `if (!points || points.length === 0) throw`; then
for each point, `hour = position - 1`, `price = price.amount / 1000`,
`time = periodStart + hour` (hours).  `periodStart = none` models a
period-start timestamp that cannot be parsed (`new Date(...)` yields an
invalid date): the first `pointTime.toISOString()` then throws — the point
list is non-empty here, so the cycle always aborts.  On success the
returned triples `(hour, price, time)` are the `hourlyRates` entries. -/
def fetchEnergyPricesCore (points : List RawPoint) (periodStart : Option ℤ) :
    Except FeedError (List (ℤ × ℚ × ℤ)) :=
  if points.isEmpty then Except.error FeedError.noPoints
  else
    match periodStart with
    | none => Except.error FeedError.invalidTime
    | some t0 =>
      Except.ok (points.map fun p =>
        (p.position - 1, p.priceAmount / 1000, t0 + (p.position - 1)))

/-- Whether the cycle aborted (no new `PriceSeries` is published). -/
def feedFails (r : Except FeedError (List (ℤ × ℚ × ℤ))) : Bool :=
  match r with
  | Except.error _ => true
  | Except.ok _ => false

/-- The spec's side condition on positions, stated from its words: the
`position` values form the contiguous range `1..N` in order. -/
def contiguousPositions (points : List RawPoint) : Bool :=
  points.map (fun p => p.position)
    == (List.range points.length).map (fun i => (i : ℤ) + 1)

end TeslaCharge

namespace TeslaCharge

/-- Claim C2: the Decision Policy (plug-in event, no override) is a pure
function evaluated in strict priority order: START on emergency
(`batteryLevel < emergencyThreshold`), else START on negative price, else
START inside the optimal window when below target, else STOP; in particular
`(et=20, bl=15, p=0.30, osh=2, cd=4, h=10, tb=80)` yields START and
`(bl=50, p=0.25, osh=1, cd=3, h=5, tb=80)` yields STOP. -/
theorem C2_decision_policy_priority :
    (∀ (bl et p tb : ℚ) (h osh cd : ℤ), bl < et →
        decisionLogic bl et p h osh cd tb = Decision.START)
    ∧ (∀ (bl et p tb : ℚ) (h osh cd : ℤ), et ≤ bl → p < 0 →
        decisionLogic bl et p h osh cd tb = Decision.START)
    ∧ (∀ (bl et p tb : ℚ) (h osh cd : ℤ), et ≤ bl → 0 ≤ p →
        osh ≤ h → h < osh + cd → bl < tb →
        decisionLogic bl et p h osh cd tb = Decision.START)
    ∧ (∀ (bl et p tb : ℚ) (h osh cd : ℤ), et ≤ bl → 0 ≤ p →
        ¬(osh ≤ h ∧ h < osh + cd ∧ bl < tb) →
        decisionLogic bl et p h osh cd tb = Decision.STOP)
    ∧ decisionLogic 15 20 (3/10) 10 2 4 80 = Decision.START
    ∧ decisionLogic 50 20 (1/4) 5 1 3 80 = Decision.STOP := by
  refine ⟨?_, ?_, ?_, ?_, by norm_num [decisionLogic], by norm_num [decisionLogic]⟩
  · intro bl et p tb h osh cd hbl
    simp [decisionLogic, hbl]
  · intro bl et p tb h osh cd hbl hp
    simp [decisionLogic, not_lt.2 hbl, hp]
  · intro bl et p tb h osh cd hbl hp h1 h2 h3
    simp [decisionLogic, not_lt.2 hbl, not_lt.2 hp, h1, h2, h3]
  · intro bl et p tb h osh cd hbl hp hwin
    simp only [decisionLogic, if_neg (not_lt.2 hbl), if_neg (not_lt.2 hp),
      if_neg hwin]

end TeslaCharge

namespace TeslaCharge

/-- Claim C3: whenever the override transition is observed
(`chargeOverride` set to `true` from a not-`true` value), `manageChargingLogic`
dispatches START, and START is the only command it dispatches — regardless of
the vehicle state, settings, prices, hour, or dispatch outcome. -/
theorem C3_override_forces_start (before after : UserDoc)
    (rates : Option (ℤ → Option ℚ)) (currentHour : ℤ) (dispatchOk : Bool)
    (htrig : overrideTriggered before after = true) :
    Action.dispatch Decision.START ∈
        manageChargingLogic before after rates currentHour dispatchOk
    ∧ ∀ c, Action.dispatch c ∈
        manageChargingLogic before after rates currentHour dispatchOk →
        c = Decision.START := by
  unfold manageChargingLogic
  rw [if_pos htrig]
  cases dispatchOk <;> simp

/-- Claim C3, witness: battery at 100%, plugged in the whole time, hour 23
far outside the window `[2, 6)` — the override still forces a START
dispatch. -/
theorem C3_override_forces_start_witness :
    Action.dispatch Decision.START ∈
        manageChargingLogic demoBefore demoAfter none 23 true
    ∧ ∀ c, Action.dispatch c ∈
        manageChargingLogic demoBefore demoAfter none 23 true →
        c = Decision.START :=
  C3_override_forces_start demoBefore demoAfter none 23 true (by decide)

/-- Claim C4: after one triggered override cycle the flag is `false` in both
outcomes — whether the `try` block (dispatch then flag reset) completed or
raised and the `catch` block reset the flag. -/
theorem C4_override_flag_cleared (before after : UserDoc)
    (rates : Option (ℤ → Option ℚ)) (currentHour : ℤ) (dispatchOk : Bool)
    (htrig : overrideTriggered before after = true) :
    (runActions after
        (manageChargingLogic before after rates currentHour dispatchOk)).chargeOverride
      = some false := by
  unfold manageChargingLogic
  rw [if_pos htrig]
  cases dispatchOk <;> simp [runActions, applyAction]

/-- Claim C4, witness: the flag ends up `false` both when the override
dispatch cycle succeeds and when it fails. -/
theorem C4_override_flag_cleared_witness :
    (runActions demoAfter
        (manageChargingLogic demoBefore demoAfter none 23 true)).chargeOverride
      = some false
    ∧ (runActions demoAfter
        (manageChargingLogic demoBefore demoAfter none 23 false)).chargeOverride
      = some false :=
  ⟨C4_override_flag_cleared demoBefore demoAfter none 23 true (by decide),
   C4_override_flag_cleared demoBefore demoAfter none 23 false (by decide)⟩

/-- Claim C10: when one document update both sets the override flag
(not-`true` → `true`) and flips `isPluggedIn` false → true, only the override
path runs: exactly one command is dispatched and it is START, the flag is
cleared, and the smart-charging decision rules are never evaluated (the
override branch returns before the plug-in check). -/
theorem C10_override_preempts_policy (before after : UserDoc)
    (rates : Option (ℤ → Option ℚ)) (currentHour : ℤ) (dispatchOk : Bool)
    (htrig : overrideTriggered before after = true)
    (hplug : plugInDetected before after = true) :
    dispatchedCommands
        (manageChargingLogic before after rates currentHour dispatchOk)
      = [Decision.START]
    ∧ Action.clearOverride ∈
        manageChargingLogic before after rates currentHour dispatchOk := by
  unfold manageChargingLogic
  rw [if_pos htrig]
  cases dispatchOk <;> simp [dispatchedCommands]

/-- Claim C10, witness: a concrete update that simultaneously sets the
override and plugs the car in. -/
theorem C10_override_preempts_policy_witness :
    dispatchedCommands
        (manageChargingLogic demoBeforeUnplugged demoAfter (some fun _ => some 1) 3 true)
      = [Decision.START]
    ∧ Action.clearOverride ∈
        manageChargingLogic demoBeforeUnplugged demoAfter (some fun _ => some 1) 3 true :=
  C10_override_preempts_policy demoBeforeUnplugged demoAfter (some fun _ => some 1) 3 true
    (by decide) (by decide)

end TeslaCharge

namespace TeslaCharge

/-- Invariant of the window scan: after `k ≥ 1` iterations the state holds a
start hour `b < k` whose window mean is minimal among the first `k` start
hours, and strictly below the mean of every earlier start hour (the strict
`<` comparison keeps the first minimiser). -/
theorem ow_fold_spec (prices : List ℚ) (d : ℕ) :
    ∀ k : ℕ, 0 < k →
      ∃ b : ℕ,
        (List.range k).foldl (owStep prices d) none
            = some (b, windowAvg prices b d)
        ∧ b < k
        ∧ (∀ j, j < k → windowAvg prices b d ≤ windowAvg prices j d)
        ∧ (∀ j, j < b → windowAvg prices b d < windowAvg prices j d) := by
  intro k
  induction k with
  | zero => omega
  | succ k ih =>
    intro _
    by_cases hk : 0 < k
    · obtain ⟨b, hfold, hbk, hmin, hstrict⟩ := ih hk
      rw [List.range_succ, List.foldl_append, hfold]
      simp only [List.foldl_cons, List.foldl_nil]
      by_cases hlt : windowAvg prices k d < windowAvg prices b d
      · refine ⟨k, ?_, by omega, ?_, ?_⟩
        · simp [owStep, hlt]
        · intro j hj
          rcases Nat.lt_succ_iff_lt_or_eq.1 hj with hj | hj
          · exact le_of_lt (lt_of_lt_of_le hlt (hmin j hj))
          · exact hj ▸ le_refl _
        · intro j hj
          exact lt_of_lt_of_le hlt (hmin j hj)
      · refine ⟨b, ?_, by omega, ?_, hstrict⟩
        · simp [owStep, hlt]
        · intro j hj
          rcases Nat.lt_succ_iff_lt_or_eq.1 hj with hj | hj
          · exact hmin j hj
          · exact hj ▸ not_lt.1 hlt
    · have hk0 : k = 0 := by omega
      subst hk0
      refine ⟨0, ?_, by omega, ?_, by omega⟩
      · simp [List.range_succ, owStep]
      · intro j hj
        have : j = 0 := by omega
        simp [this]

/-- Claim C1: for a 24-entry price series and `1 ≤ d ≤ 24`, the Window
Selector returns a start hour whose window mean is minimal over all valid
start hours, and which is the smallest among the minimisers (strict `<`
against the running minimum keeps the earliest). -/
theorem C1_window_selector_optimal (prices : List ℚ) (d : ℕ)
    (hlen : prices.length = 24) (hd1 : 1 ≤ d) (hd24 : d ≤ 24) :
    ∃ s : ℕ,
      bestStartHour prices d = some s
      ∧ s + d ≤ 24
      ∧ (∀ t, t + d ≤ 24 → windowAvg prices s d ≤ windowAvg prices t d)
      ∧ (∀ t, t + d ≤ 24 → windowAvg prices t d ≤ windowAvg prices s d → s ≤ t) := by
  have hiter : owIterCount prices.length d = 24 - d + 1 := by
    rw [hlen, owIterCount, if_pos (by omega)]
  obtain ⟨b, hfold, hbk, hmin, hstrict⟩ :=
    ow_fold_spec prices d (24 - d + 1) (by omega)
  refine ⟨b, ?_, by omega, ?_, ?_⟩
  · unfold bestStartHour calculateOptimalWindow
    rw [hiter, hfold]
    rfl
  · intro t ht
    exact hmin t (by omega)
  · intro t ht hle
    by_contra hbt
    exact absurd hle (not_le.2 (hstrict t (by omega)))

/-- Claim C1, witness: on `demoPrices` with `d = 2`, the selector returns a
minimising, earliest start hour. -/
theorem C1_window_selector_optimal_witness :
    ∃ s : ℕ,
      bestStartHour demoPrices 2 = some s
      ∧ s + 2 ≤ 24
      ∧ (∀ t, t + 2 ≤ 24 → windowAvg demoPrices s 2 ≤ windowAvg demoPrices t 2)
      ∧ (∀ t, t + 2 ≤ 24 →
          windowAvg demoPrices t 2 ≤ windowAvg demoPrices s 2 → s ≤ t) :=
  C1_window_selector_optimal demoPrices 2 (by rfl) (by omega) (by omega)

/-- Claim C5: a duration larger than the price series produces no update
(the stored `optimalStartHour` is untouched), and a user with no settings
map or no `chargingDuration` is skipped without a write. -/
theorem C5_insufficient_data (prices : List ℚ) (u : WindowUser) :
    (∀ s dd, u.settings = some s → s.chargingDuration = some dd →
        prices.length < dd → processUser prices u = none)
    ∧ (u.settings = none → processUser prices u = none)
    ∧ (∀ s, u.settings = some s → s.chargingDuration = none →
        processUser prices u = none)
    ∧ (processUser prices u = none →
        applyWindowUpdate u (processUser prices u) = u) := by
  refine ⟨?_, ?_, ?_, ?_⟩
  · intro s dd hs hd hlen
    have hscan : bestStartHour prices dd = none := by
      unfold bestStartHour calculateOptimalWindow
      rw [owIterCount, if_neg (by omega)]
      rfl
    have hdd : dd ≠ 0 := by omega
    simp [processUser, hs, hd, hdd, hscan]
  · intro hs
    simp [processUser, hs]
  · intro s hs hd
    simp [processUser, hs, hd]
  · intro hnone
    rw [hnone]
    rfl

/-- Claim C5, witness: an empty price series with a 4-hour duration writes
nothing, and the stored `optimalStartHour` (7) survives unchanged. -/
theorem C5_insufficient_data_witness :
    processUser [] demoWindowUser = none
    ∧ applyWindowUpdate demoWindowUser (processUser [] demoWindowUser)
        = demoWindowUser :=
  ⟨(C5_insufficient_data [] demoWindowUser).1
      { chargingDuration := some 4, optimalStartHour := some 7 } 4
      (by rfl) (by rfl) (by decide),
   (C5_insufficient_data [] demoWindowUser).2.2.2
      ((C5_insufficient_data [] demoWindowUser).1
        { chargingDuration := some 4, optimalStartHour := some 7 } 4
        (by rfl) (by rfl) (by decide))⟩

end TeslaCharge

namespace TeslaCharge

/-- Claim C6: the plug-in-transition notification fires exactly on a
false → true flip of `isPluggedIn` — the branch guard of
`manageChargingLogic` is precisely that rising edge, any other transition
(with no override) makes the handler do nothing, and the snapshot sequence
true → false → true yields exactly one notification, on the second
update. -/
theorem C6_plug_in_transition_exactness :
    (∀ b a : Bool, plugInFlip b a = true ↔ (b = false ∧ a = true))
    ∧ (∀ before after : UserDoc,
        plugInDetected before after
          = plugInFlip before.vehicle.isPluggedIn after.vehicle.isPluggedIn)
    ∧ (∀ (before after : UserDoc) (rates : Option (ℤ → Option ℚ))
        (currentHour : ℤ) (dispatchOk : Bool),
        overrideTriggered before after = false →
        plugInDetected before after = false →
        manageChargingLogic before after rates currentHour dispatchOk = [])
    ∧ plugInEvents [true, false, true] = [false, true]
    ∧ (plugInEvents [true, false, true]).count true = 1 := by
  refine ⟨by decide, fun before after => rfl, ?_, by decide, by decide⟩
  intro before after rates currentHour dispatchOk hov hplug
  simp [manageChargingLogic, hov, hplug]

/-- Claim C7, counterexample: positions `{1, 3}` are not a contiguous
`1..N` range, yet the normaliser succeeds and publishes the two rates
(hours 0 and 2) instead of failing. -/
theorem C7_counterexample :
    contiguousPositions
        [{ position := 1, priceAmount := 5 }, { position := 3, priceAmount := 7 }]
      = false
    ∧ fetchEnergyPricesCore
        [{ position := 1, priceAmount := 5 }, { position := 3, priceAmount := 7 }]
        (some 0)
      = Except.ok [(0, 1/200, 0), (2, 7/1000, 2)] := by
  constructor
  · decide
  · norm_num [fetchEnergyPricesCore]

/-- Claim C7 as amended: the normalisation step fails (and publishes no new
`PriceSeries`) exactly when the input contains zero price points or the
period-start timestamp cannot be parsed; the contiguity of `position`
values is not checked. -/
theorem C7_malformed_feed_amended (points : List RawPoint)
    (periodStart : Option ℤ) :
    feedFails (fetchEnergyPricesCore points periodStart) = true
    ↔ (points = [] ∨ periodStart = none) := by
  cases points <;> cases periodStart <;>
    simp [fetchEnergyPricesCore, feedFails]

/-- Claim C8: a telemetry update carrying only `battery_level` leaves
`isCharging` and `isPluggedIn` unchanged; more generally every field absent
from the payload keeps its previous value (partial update, not replace). -/
theorem C8_partial_update_frame (v : TVehicle) (q : Option ℚ)
    (data : TelemetryData) :
    ((applyTelemetry v (⟨none, none, q⟩ : TelemetryData)).isCharging
        = v.isCharging
      ∧ (applyTelemetry v (⟨none, none, q⟩ : TelemetryData)).isPluggedIn
        = v.isPluggedIn)
    ∧ (data.charging_state = none →
        (applyTelemetry v data).isCharging = v.isCharging)
    ∧ (data.charge_port_latch = none →
        (applyTelemetry v data).isPluggedIn = v.isPluggedIn)
    ∧ (data.battery_level = none →
        (applyTelemetry v data).batteryLevel = v.batteryLevel) := by
  obtain ⟨cs, cpl, bl⟩ := data
  refine ⟨⟨?_, ?_⟩, ?_, ?_, ?_⟩ <;>
    cases cs <;> cases cpl <;> cases bl <;> cases q <;>
      simp_all [applyTelemetry] <;> split_ifs <;> simp_all

/-- Claim C9: a present-but-falsy telemetry field is never applied — a
`battery_level` of 0 and empty-string `charging_state` /
`charge_port_latch` leave the corresponding stored fields unchanged,
exactly as if the fields were absent. -/
theorem C9_falsy_fields_ignored (v : TVehicle) :
    applyTelemetry v (⟨some "", some "", some 0⟩ : TelemetryData) = v
    ∧ applyTelemetry v (⟨none, none, some 0⟩ : TelemetryData) = v
    ∧ applyTelemetry v (⟨some "", none, none⟩ : TelemetryData) = v
    ∧ applyTelemetry v (⟨none, some "", none⟩ : TelemetryData) = v
    ∧ applyTelemetry v (⟨none, none, none⟩ : TelemetryData) = v := by
  refine ⟨?_, ?_, ?_, ?_, ?_⟩ <;> simp [applyTelemetry]

end TeslaCharge
